import Mathlib

/-!
Verification development for the ControlFlow repository.

The definitions below are a shallow embedding of `src/control_flow/agent.py`
and `src/controlflow/events/orchestrator_events.py`.  The task data model
(`TaskStatus`, `AITask`) is modelled from the specification because
`control_flow/task.py` is not part of the provided sources; every operation
on it used below (`status`, `result`, `error` access) is exactly what
`agent.py` itself uses.

A model invocation (`openai_run(...)` in the Python code) is represented by
an arbitrary step function `step : List AITask → List AITask` describing how
the model's tool calls mutate the task list during one turn.  The task-list
membership is fixed in the source (tasks are only mutated in place), which
corresponds to hypotheses such as length preservation where needed.
-/

/-- Modelled from the spec: the task status enum of `control_flow/task.py`
(section 3 of the specification): `PENDING`, `COMPLETED`, `FAILED`. -/
inductive TaskStatus where
  | pending
  | completed
  | failed
deriving DecidableEq, Repr

/-- Modelled from the spec: the `AITask` record of `control_flow/task.py`
(section 3 of the specification).  The generic result type `T` is
instantiated with `String` (the default cast in `run_agent`); `result` is
`none` until completion and `error` is `none` until failure. -/
structure AITask where
  objective : String := ""
  status : TaskStatus := TaskStatus.pending
  result : Option String := none
  error : Option String := none
  instructions : Option String := none
  context : List (String × String) := []
deriving DecidableEq, Repr

namespace Agent

/-- Embedding of the `while` loop of `Agent.run_async`
(`agent.py` lines 438-444):

    counter = 0
    while (any(t.status == TaskStatus.PENDING for t in self.tasks)
           and counter < settings.max_agent_iterations):
        openai_run(context=context, run_kwargs=run_kwargs)
        counter += 1

The first argument is the remaining iteration budget
`max_agent_iterations - counter` (structural fuel); the guard
`counter < max_agent_iterations` is exactly `fuel > 0`.  Returns the final
task list together with the final value of `counter`. -/
def run_loop (step : List AITask → List AITask) :
    Nat → Nat → List AITask → List AITask × Nat
  | 0, counter, tasks => (tasks, counter)
  | fuel + 1, counter, tasks =>
    if tasks.any (fun t => t.status = TaskStatus.pending) then
      run_loop step fuel (counter + 1) (step tasks)
    else
      (tasks, counter)

/-- Embedding of `Agent.run_async` (`agent.py` lines 429-448).  The first
`openai_run` call is unconditional; the loop only runs when
`system_access` is false.  Returns the final task list, the result list
`[t.result for t in self.tasks if t.status == TaskStatus.COMPLETED]`, and
the total number of model invocations performed. -/
def run_async (system_access : Bool) (max_iter : Nat)
    (step : List AITask → List AITask) (tasks : List AITask) :
    List AITask × List (Option String) × Nat :=
  let tasks1 := step tasks
  let looped :=
    if system_access then (tasks1, 0) else run_loop step max_iter 0 tasks1
  let result :=
    (looped.1.filter fun t => t.status = TaskStatus.completed).map
      (fun t => t.result)
  (looped.1, result, 1 + looped.2)

end Agent

section RunLoopLemmas

/-- Helper: if every step leaves every task `PENDING` and never empties the
task list, the loop consumes its entire fuel budget, incrementing the
counter each time, and ends with all tasks still `PENDING`. -/
theorem run_loop_all_pending (step : List AITask → List AITask)
    (hp : ∀ ts, ∀ t ∈ step ts, t.status = TaskStatus.pending)
    (hne : ∀ ts, step ts ≠ []) :
    ∀ (fuel counter : Nat) (tasks : List AITask),
      (∀ t ∈ tasks, t.status = TaskStatus.pending) → tasks ≠ [] →
      (Agent.run_loop step fuel counter tasks).2 = counter + fuel ∧
      (∀ t ∈ (Agent.run_loop step fuel counter tasks).1,
        t.status = TaskStatus.pending) ∧
      (Agent.run_loop step fuel counter tasks).1 ≠ [] := by
  intro fuel
  induction fuel with
  | zero =>
    intro counter tasks hall hne2
    simp [Agent.run_loop]
    exact ⟨hall, hne2⟩
  | succ n ih =>
    intro counter tasks hall hne2
    have hany : tasks.any (fun t => t.status = TaskStatus.pending) = true := by
      rcases List.exists_mem_of_ne_nil tasks hne2 with ⟨t, ht⟩
      simp only [List.any_eq_true, decide_eq_true_eq]
      exact ⟨t, ht, hall t ht⟩
    have := ih (counter + 1) (step tasks) (hp tasks) (hne tasks)
    simp only [Agent.run_loop, hany, if_true]
    refine ⟨?_, this.2.1, this.2.2⟩
    rw [this.1]
    omega

/-- Helper: `run_loop` preserves the length of the task list whenever the
step function does (task-list membership is fixed in the source; only
statuses mutate). -/
theorem run_loop_length (step : List AITask → List AITask)
    (hlen : ∀ ts, (step ts).length = ts.length) :
    ∀ (fuel counter : Nat) (tasks : List AITask),
      (Agent.run_loop step fuel counter tasks).1.length = tasks.length := by
  intro fuel
  induction fuel with
  | zero => intro counter tasks; simp [Agent.run_loop]
  | succ n ih =>
    intro counter tasks
    by_cases hany : tasks.any (fun t => t.status = TaskStatus.pending) = true
    · simp only [Agent.run_loop, hany, if_true]
      rw [ih (counter + 1) (step tasks), hlen tasks]
    · simp only [Agent.run_loop, Bool.not_eq_true] at hany
      simp [Agent.run_loop, hany]

end RunLoopLemmas

/-- C1: with `system_access = false`, when every model invocation leaves all
tasks `PENDING` (and the agent keeps at least one task), `run_async`
performs exactly `1 + max_agent_iterations` model invocations — one
unconditional entry turn plus `max_agent_iterations` loop turns — and
returns the empty result list. -/
theorem run_async_never_resolved (max_iter : Nat)
    (step : List AITask → List AITask) (tasks : List AITask)
    (hp : ∀ ts, ∀ t ∈ step ts, t.status = TaskStatus.pending)
    (hne : ∀ ts, step ts ≠ []) :
    (Agent.run_async false max_iter step tasks).2.2 = 1 + max_iter ∧
    (Agent.run_async false max_iter step tasks).2.1 = [] := by
  have h := run_loop_all_pending step hp hne max_iter 0 (step tasks)
    (hp tasks) (hne tasks)
  constructor
  · simp only [Agent.run_async, if_false, Bool.false_eq_true]
    rw [h.1]
    omega
  · simp only [Agent.run_async, if_false, Bool.false_eq_true]
    rw [List.map_eq_nil_iff, List.filter_eq_nil_iff]
    intro t ht
    have := h.2.1 t ht
    simp [this]

/-- Witness for C1 at a concrete input: a single-task step that always
leaves the task pending, with `max_agent_iterations = 3`, yields exactly
4 invocations and the empty result list. -/
theorem run_async_never_resolved_witness :
    (Agent.run_async false 3 (fun _ => [{ objective := "t" }])
        [{ objective := "t" }]).2.2 = 1 + 3 ∧
    (Agent.run_async false 3 (fun _ => [{ objective := "t" }])
        [{ objective := "t" }]).2.1 = [] :=
  run_async_never_resolved 3 (fun _ => [{ objective := "t" }])
    [{ objective := "t" }]
    (by intro ts t ht; simp at ht; simp [ht])
    (by intro ts; simp)

/-- C2: `run_async` returns exactly the `result` values of the tasks whose
status is `COMPLETED` when the loop ends, in task-list order; `PENDING`
or `FAILED` tasks contribute no element. -/
theorem run_async_result_list (system_access : Bool) (max_iter : Nat)
    (step : List AITask → List AITask) (tasks : List AITask) :
    (Agent.run_async system_access max_iter step tasks).2.1 =
      ((Agent.run_async system_access max_iter step tasks).1.filter
        fun t => t.status = TaskStatus.completed).map (fun t => t.result) := by
  cases system_access <;> simp [Agent.run_async]

/-- C4: with `system_access = true`, `run_async` performs exactly one model
invocation and never enters the repeat loop, regardless of task statuses
or the iteration budget: the final task state is the result of a single
step. -/
theorem run_async_system_access_single_turn (max_iter : Nat)
    (step : List AITask → List AITask) (tasks : List AITask) :
    (Agent.run_async true max_iter step tasks).2.2 = 1 ∧
    (Agent.run_async true max_iter step tasks).1 = step tasks := by
  simp [Agent.run_async]

/-! ### Tool assembly (`Agent._get_tools`, `agent.py` lines 318-340)

Flow-level, agent-level and assistant-level tools are externally supplied
callables; they are modelled by their names (`String`) and enter the tool
list through the `provided` constructor, distinct from the tools that
`_get_tools` itself generates (`end_run`, per-task complete/fail tools,
`talk_to_human`). -/

/-- Descriptor for one entry of the assembled tool list. -/
inductive ToolDesc where
  | provided (name : String)
  | end_run
  | complete (task_id : Nat) (end_run : Bool)
  | fail (task_id : Nat) (end_run : Bool)
  | talk_to_human
deriving DecidableEq, Repr

/-- Embedding of `AIFlow` as used by `agent.py`: its tool list and optional
flow-level instructions. -/
structure AIFlow where
  tools : List String := []
  instructions : Option String := none
deriving DecidableEq, Repr

/-- Embedding of the `Assistant` collaborator as used by `agent.py`: its
name, tool list and optional assistant-level instructions. -/
structure Assistant where
  name : String := ""
  tools : List String := []
  instructions : Option String := none
deriving DecidableEq, Repr

/-- Embedding of the `Agent` pydantic model (`agent.py` lines 252-271),
restricted to the fields the verified operations read. -/
structure Agent where
  tasks : List AITask := []
  flow : AIFlow := {}
  assistant : Assistant := {}
  tools : List String := []
  context : List (String × String) := []
  user_access : Bool
  system_access : Bool
  instructions : Option String := none
deriving DecidableEq, Repr

namespace Agent

/-- Embedding of the `_default_access` field validator (`agent.py` lines
297-301): `if v is None: v = False; return v`, applied to both
`user_access` and `system_access`. -/
def _default_access (v : Option Bool) : Bool :=
  match v with
  | none => false
  | some b => b

/-- Embedding of `Agent.numbered_tasks` (`agent.py` lines 303-304):
`[(i + 1, task) for i, task in enumerate(self.tasks)]`. -/
def numbered_tasks (a : Agent) : List (Nat × AITask) :=
  a.tasks.enum.map (fun p => (p.1 + 1, p.2))

/-- Embedding of the `early_end_run` computation in `_get_tools`
(`agent.py` lines 326-329): true iff the agent has no system access and
exactly one task. -/
def early_end_run (a : Agent) : Bool :=
  if !a.system_access && a.tasks.length == 1 then true else false

/-- Embedding of `Agent._get_tools` (`agent.py` lines 318-340): flow tools,
agent tools and assistant tools, then `end_run` when there are no tasks,
then a complete/fail tool pair per numbered task (flagged with
`early_end_run`), then `talk_to_human` when `user_access` is set.  The
per-function wrapping pass (lines 342-384) rewrites each function tool in
place and is modelled separately by `modified_fn`. -/
def _get_tools (a : Agent) : List ToolDesc :=
  let tools := (a.flow.tools ++ a.tools ++ a.assistant.tools).map ToolDesc.provided
  let tools := if a.tasks.isEmpty then tools ++ [ToolDesc.end_run] else tools
  let tools := tools ++
    a.numbered_tasks.flatMap (fun p =>
      [ToolDesc.complete p.1 a.early_end_run, ToolDesc.fail p.1 a.early_end_run])
  if a.user_access then tools ++ [ToolDesc.talk_to_human] else tools

end Agent

/-- Helper: the assembled tool list, written as four appended segments. -/
theorem get_tools_eq (a : Agent) :
    Agent._get_tools a =
      (a.flow.tools ++ a.tools ++ a.assistant.tools).map ToolDesc.provided
      ++ (if a.tasks.isEmpty then [ToolDesc.end_run] else [])
      ++ a.numbered_tasks.flatMap (fun p =>
          [ToolDesc.complete p.1 a.early_end_run,
           ToolDesc.fail p.1 a.early_end_run])
      ++ (if a.user_access then [ToolDesc.talk_to_human] else []) := by
  simp only [Agent._get_tools]
  cases hE : a.tasks.isEmpty <;> cases hU : a.user_access <;> simp [hE, hU]

/-- C3: in `_get_tools` every per-task complete/fail tool is created with
`end_run` equal to `early_end_run`; for each numbered task both tools are
present with that flag; and the flag is true if and only if
`system_access` is false and the agent has exactly one task (so it is
false whenever `system_access` is true, there are zero tasks, or there
are two or more tasks). -/
theorem get_tools_early_end_run (a : Agent) :
    (∀ i b, (ToolDesc.complete i b ∈ Agent._get_tools a ∨
             ToolDesc.fail i b ∈ Agent._get_tools a) →
      b = a.early_end_run) ∧
    (∀ p ∈ a.numbered_tasks,
      ToolDesc.complete p.1 a.early_end_run ∈ Agent._get_tools a ∧
      ToolDesc.fail p.1 a.early_end_run ∈ Agent._get_tools a) ∧
    (a.early_end_run = true ↔ a.system_access = false ∧ a.tasks.length = 1) := by
  refine ⟨?_, ?_, ?_⟩
  · intro i b hmem
    rcases hmem with h | h <;>
    · rw [get_tools_eq] at h
      simp only [List.mem_append, List.mem_map, List.mem_ite_nil_right,
        List.mem_flatMap, List.mem_cons, List.not_mem_nil, or_false,
        List.mem_singleton] at h
      rcases h with ((⟨n, _, hn⟩ | ⟨_, hn⟩) | ⟨p, _, hn | hn⟩) | ⟨_, hn⟩ <;>
        injection hn
  · intro p hp
    rw [get_tools_eq]
    constructor <;>
    · simp only [List.mem_append, List.mem_flatMap]
      refine Or.inl (Or.inr ⟨p, hp, ?_⟩)
      simp
  · simp only [Agent.early_end_run, Bool.and_eq_true, Bool.not_eq_true',
      beq_iff_eq]
    by_cases h : a.system_access = false ∧ a.tasks.length = 1 <;> simp [h]

/-- Witness for C3 at a concrete input: a single-task, no-system-access
agent gets a complete tool flagged `end_run = true` (the value of
`early_end_run` there), and the flag characterisation holds. -/
theorem get_tools_early_end_run_witness :
    ToolDesc.complete 1
        (Agent.early_end_run
          { tasks := [{ objective := "t" }], user_access := false,
            system_access := false }) ∈
      Agent._get_tools
        { tasks := [{ objective := "t" }], user_access := false,
          system_access := false } :=
  ((get_tools_early_end_run
      { tasks := [{ objective := "t" }], user_access := false,
        system_access := false }).2.1
    (1, { objective := "t" }) (by simp [Agent.numbered_tasks])).1

/-- C5: the assembled tool list contains every flow, agent and assistant
tool; contains `end_run` iff the agent has zero tasks; contains a
complete tool and a fail tool for each numbered task; and contains
`talk_to_human` iff `user_access` is true. -/
theorem get_tools_contents (a : Agent) :
    (∀ n ∈ a.flow.tools ++ a.tools ++ a.assistant.tools,
      ToolDesc.provided n ∈ Agent._get_tools a) ∧
    (ToolDesc.end_run ∈ Agent._get_tools a ↔ a.tasks = []) ∧
    (∀ p ∈ a.numbered_tasks,
      (∃ b, ToolDesc.complete p.1 b ∈ Agent._get_tools a) ∧
      (∃ b, ToolDesc.fail p.1 b ∈ Agent._get_tools a)) ∧
    (ToolDesc.talk_to_human ∈ Agent._get_tools a ↔ a.user_access = true) := by
  refine ⟨?_, ?_, ?_, ?_⟩
  · intro n hn
    rw [get_tools_eq]
    simp only [List.mem_append]
    exact Or.inl (Or.inl (Or.inl (List.mem_map_of_mem _ hn)))
  · rw [get_tools_eq]
    simp only [List.mem_append, List.mem_map, List.mem_ite_nil_right,
      List.mem_flatMap, List.mem_cons, List.not_mem_nil, or_false,
      List.mem_singleton]
    constructor
    · rintro (((⟨n, _, hn⟩ | ⟨he, _⟩) | ⟨p, _, hn | hn⟩) | ⟨_, hn⟩) <;>
        first
          | injection hn
          | exact List.isEmpty_iff.mp he
    · intro h
      exact Or.inl (Or.inl (Or.inr ⟨by simp [h], trivial⟩))
  · intro p hp
    constructor <;>
    · refine ⟨a.early_end_run, ?_⟩
      rw [get_tools_eq]
      simp only [List.mem_append, List.mem_flatMap]
      refine Or.inl (Or.inr ⟨p, hp, ?_⟩)
      simp
  · rw [get_tools_eq]
    simp only [List.mem_append, List.mem_map, List.mem_ite_nil_right,
      List.mem_flatMap, List.mem_cons, List.not_mem_nil, or_false,
      List.mem_singleton]
    constructor
    · rintro (((⟨n, _, hn⟩ | ⟨_, hn⟩) | ⟨p, _, hn | hn⟩) | ⟨hu, _⟩) <;>
        first
          | injection hn
          | exact hu
    · intro h
      exact Or.inr ⟨h, trivial⟩

/-- Witness for C5 at a concrete input: an agent with zero tasks and
`user_access = true` has the `end_run` tool in its list, and a flow tool
named f appears in the list. -/
theorem get_tools_contents_witness :
    ToolDesc.end_run ∈
      Agent._get_tools
        { tasks := [], flow := { tools := ["f"] }, user_access := true,
          system_access := false } ∧
    ToolDesc.provided "f" ∈
      Agent._get_tools
        { tasks := [], flow := { tools := ["f"] }, user_access := true,
          system_access := false } :=
  ⟨(get_tools_contents
      { tasks := [], flow := { tools := ["f"] }, user_access := true,
        system_access := false }).2.1.mpr rfl,
   (get_tools_contents
      { tasks := [], flow := { tools := ["f"] }, user_access := true,
        system_access := false }).1 "f" (by simp)⟩

/-! ### Tool wrapping (`agent.py` lines 342-384)

Each function tool is rewritten so that invoking it first calls the
original callable, then records a markdown artifact built from the tool
name, description, bound arguments and result, and finally returns the
original result.  The artifact side effect is modelled as an explicit
second component. -/

/-- Artifact recorded by the tool wrapper, from
`TOOL_CALL_FUNCTION_RESULT_TEMPLATE` (`agent.py` lines 42-60). -/
structure ToolCallArtifact where
  name : String
  description : String
  args : String
  result : String
deriving DecidableEq, Repr

/-- Embedding of the `modified_fn` closure of `_get_tools` (`agent.py`
lines 351-377): call the original function, record a markdown artifact
(with the description defaulting to the placeholder text when absent),
and return the original result unchanged. -/
def modified_fn {α β : Type} (original_fn : α → β) (name : String)
    (description : Option String) (format_args : α → String)
    (format_result : β → String) (args : α) : β × ToolCallArtifact :=
  let result := original_fn args
  (result,
    { name := name
      description := description.getD "(none provided)"
      args := format_args args
      result := format_result result })

/-- C6: for every wrapped function tool and every accepted argument,
invoking the wrapper returns the same value as invoking the unwrapped
original function; the wrapping only adds the artifact side effect. -/
theorem modified_fn_preserves_result {α β : Type} (original_fn : α → β)
    (name : String) (description : Option String) (format_args : α → String)
    (format_result : β → String) (args : α) :
    (modified_fn original_fn name description format_args format_result
        args).1 = original_fn args := rfl

/-! ### `run_agent` (`agent.py` lines 531-568) -/

/-- Embedding of `run_agent` for a caller that requests a single task
result: one task is created for the objective, the agent is run with the
default access flags (`system_access = false`, so the iteration loop is
active), and then the first task is inspected: `COMPLETED` returns its
result, `FAILED` raises `ValueError(task.error)` (modelled as
`Except.error`), and anything else falls through and returns `None`. -/
def run_agent (task : String) (max_iter : Nat)
    (step : List AITask → List AITask) :
    Except (Option String) (Option String) :=
  let ai_tasks : List AITask := [{ objective := task }]
  let r := Agent.run_async false max_iter step ai_tasks
  match r.1.head? with
  | none => Except.ok none
  | some t =>
    match t.status with
    | TaskStatus.completed => Except.ok t.result
    | TaskStatus.failed => Except.error t.error
    | TaskStatus.pending => Except.ok none

/-- C7: a caller that requested a single task result via `run_agent` gets
the coerced result when the task ends `COMPLETED`, a raised domain error
carrying the task error message when it ends `FAILED`, and a plain
non-error `None` return when the budget is exhausted with the task still
`PENDING` — so a non-error return does not imply success. -/
theorem run_agent_outcomes (task : String) (max_iter : Nat)
    (step : List AITask → List AITask)
    (hlen : ∀ ts, (step ts).length = ts.length) :
    ∀ t ∈ (Agent.run_async false max_iter step [{ objective := task }]).1,
      (t.status = TaskStatus.completed →
        run_agent task max_iter step = Except.ok t.result) ∧
      (t.status = TaskStatus.failed →
        run_agent task max_iter step = Except.error t.error) ∧
      (t.status = TaskStatus.pending →
        run_agent task max_iter step = Except.ok none) := by
  intro t ht
  have hl : (Agent.run_async false max_iter step
      [{ objective := task }]).1.length = 1 := by
    simp [Agent.run_async, run_loop_length step hlen, hlen]
  rcases List.length_eq_one.mp hl with ⟨u, hu⟩
  rw [hu] at ht
  have htu : t = u := List.eq_of_mem_singleton ht
  subst htu
  refine ⟨fun hs => ?_, fun hs => ?_, fun hs => ?_⟩ <;>
    simp [run_agent, hu, hs]

/-- Witness for C7 at a concrete input: with a zero iteration budget and a
step that changes nothing, the single task stays `PENDING` and
`run_agent` returns without raising. -/
theorem run_agent_outcomes_witness :
    run_agent "obj" 0 (fun ts => ts) = Except.ok none :=
  (run_agent_outcomes "obj" 0 (fun ts => ts) (fun _ => rfl)
    { objective := "obj" } (List.mem_singleton_self _)).2.2 rfl

/-! ### Instruction rendering (`Agent._get_instructions`, `agent.py`
lines 306-316)

The Jinja template `INSTRUCTIONS` (lines 63-161) is a pure function of the
agent (its tasks, access flags and instructions), the flow and assistant
instructions, the ambient instruction list and the merged context.  It is
embedded as explicit string building with the same branch structure. -/

/-- Embedding of the `.value` strings of the task status enum, as rendered
by the instruction template. -/
def TaskStatus.value : TaskStatus → String
  | TaskStatus.pending => "pending"
  | TaskStatus.completed => "completed"
  | TaskStatus.failed => "failed"

/-- Rendering of an optional string, as Python interpolation renders
`None`. -/
def opt_str : Option String → String
  | some s => s
  | none => "None"

/-- Rendering of the per-key context lines of the template. -/
def render_context_lines (ctxt : List (String × String)) : String :=
  String.join (ctxt.map (fun kv => "- " ++ kv.1 ++ ": " ++ kv.2 ++ "\n"))

/-- Rendering of one numbered task block of the template
(`agent.py` lines 102-118): status, objective, optional per-task
instructions, result on completion, error on failure, optional context. -/
def render_task (p : Nat × AITask) : String :=
  "### Task " ++ toString p.1 ++ "\n" ++
  "- Status: " ++ p.2.status.value ++ "\n" ++
  "- Objective: " ++ p.2.objective ++ "\n" ++
  (match p.2.instructions with
    | some s => "- Additional instructions: " ++ s ++ "\n"
    | none => "") ++
  (match p.2.status with
    | TaskStatus.completed => "- Result: " ++ opt_str p.2.result ++ "\n"
    | TaskStatus.failed => "- Error: " ++ opt_str p.2.error ++ "\n"
    | TaskStatus.pending => "") ++
  (if p.2.context.isEmpty then ""
    else "- Context: " ++ render_context_lines p.2.context)

/-- Embedding of the context merge `{**self.context, **(context or {})}`
performed by `_get_instructions` (`agent.py` line 313): keys of the base
mapping keep their position but take the extra value when overridden, and
new keys of the extra mapping follow in order. -/
def merge_context (base extra : List (String × String)) :
    List (String × String) :=
  base.map (fun kv =>
    match extra.find? (fun kv2 => kv2.1 == kv.1) with
    | some kv2 => (kv.1, kv2.2)
    | none => kv)
  ++ extra.filter (fun kv2 => !(base.any (fun kv => kv.1 == kv2.1)))

namespace Agent

/-- Embedding of `Agent._get_instructions` (`agent.py` lines 306-316): the
template is rendered over the agent, its flow and assistant, the ambient
instruction list and the merged context, mirroring every conditional
branch of `INSTRUCTIONS` (tasks present or not, `system_access`,
`user_access`, additional context present or not). -/
def _get_instructions (a : Agent) (ambient_instructions : List String)
    (extra_context : List (String × String)) : String :=
  let merged := merge_context a.context extra_context
  "You are an AI assistant. Your job is to complete the tasks assigned to you.\n"
  ++ "## Instructions\n"
  ++ (match a.assistant.instructions with
      | some s => "- " ++ s ++ "\n"
      | none => "")
  ++ (match a.flow.instructions with
      | some s => "- " ++ s ++ "\n"
      | none => "")
  ++ (match a.instructions with
      | some s => "- " ++ s ++ "\n"
      | none => "")
  ++ String.join (ambient_instructions.map (fun s => "- " ++ s ++ "\n"))
  ++ "## Tasks\n"
  ++ (if a.tasks.isEmpty then
        "You have no explicit tasks to complete. If it is not possible to comply with the instructions in any way, use the end_run tool to manually stop the run.\n"
      else
        "You have been assigned the following tasks.\n"
        ++ String.join (a.numbered_tasks.map render_task))
  ++ "## Communication\n"
  ++ (if a.system_access then
        "The software that created you is an AI capable of processing natural language, so you can freely respond by posting messages to the thread.\n"
      else
        "ONLY USE TOOLS TO RESPOND.\n")
  ++ (if a.user_access then
        "There is also a human user who may be involved in the task. You can communicate with them using the talk_to_human tool.\n"
      else
        "You can not communicate with a human user at this time.\n")
  ++ (if merged.isEmpty then ""
      else "## Additional context\n" ++ render_context_lines merged)

end Agent

/-- C8: instruction rendering is deterministic — two calls to
`_get_instructions` made with identical agent, flow, task-list, ambient
instruction and context state produce byte-identical instruction text. -/
theorem get_instructions_deterministic (a1 a2 : Agent)
    (amb1 amb2 : List String) (c1 c2 : List (String × String))
    (h1 : a1 = a2) (h2 : amb1 = amb2) (h3 : c1 = c2) :
    Agent._get_instructions a1 amb1 c1 = Agent._get_instructions a2 amb2 c2 := by
  subst h1
  subst h2
  subst h3
  rfl

/-- Witness for C8 at a concrete input: rendering a concrete one-task agent
twice from identical state gives identical text. -/
theorem get_instructions_deterministic_witness :
    Agent._get_instructions
      { tasks := [{ objective := "t" }], user_access := false,
        system_access := false } ["extra"] [("k", "v")] =
    Agent._get_instructions
      { tasks := [{ objective := "t" }], user_access := false,
        system_access := false } ["extra"] [("k", "v")] :=
  get_instructions_deterministic _ _ _ _ _ _ rfl rfl rfl

/-! ### Orchestrator events (`controlflow/events/orchestrator_events.py`)

Each event class fixes its `event` literal, declares `persist: bool =
False`, and carries a back-reference to the orchestrator; the error event
additionally carries the error (serialized to a string by its pydantic
serializer) and the two agent-turn events carry the agent.  The
`Orchestrator` collaborator is modelled as an opaque-reference record. -/

/-- Reference to an orchestrator instance (the back-reference carried by
every orchestrator event). -/
structure Orchestrator where
  ref : Nat := 0
deriving DecidableEq, Repr

/-- Embedding of `OrchestratorStart` (`orchestrator_events.py` lines
11-14). -/
structure OrchestratorStart where
  event : String := "orchestrator-start"
  persist : Bool := false
  orchestrator : Orchestrator

/-- Embedding of `OrchestratorEnd` (lines 17-20). -/
structure OrchestratorEnd where
  event : String := "orchestrator-end"
  persist : Bool := false
  orchestrator : Orchestrator

/-- Embedding of `OrchestratorError` (lines 23-27); the carried exception
is serialized to a string by `PlainSerializer(lambda x: str(x))`. -/
structure OrchestratorError where
  event : String := "orchestrator-error"
  persist : Bool := false
  orchestrator : Orchestrator
  error : String

/-- Embedding of `AgentTurnStart` (lines 30-34). -/
structure AgentTurnStart where
  event : String := "agent-turn-start"
  persist : Bool := false
  orchestrator : Orchestrator
  agent : Agent

/-- Embedding of `AgentTurnEnd` (lines 37-41). -/
structure AgentTurnEnd where
  event : String := "agent-turn-end"
  persist : Bool := false
  orchestrator : Orchestrator
  agent : Agent

/-- C9: each of the five orchestrator event types carries a back-reference
to the orchestrator instance and has its persist flag set to false, so no
event is persisted to durable storage; the error event additionally
carries the error and the two agent-turn events carry the agent. -/
theorem orchestrator_events_transient (o : Orchestrator) (err : String)
    (ag : Agent) :
    ({ orchestrator := o } : OrchestratorStart).persist = false ∧
    ({ orchestrator := o } : OrchestratorStart).orchestrator = o ∧
    ({ orchestrator := o } : OrchestratorStart).event = "orchestrator-start" ∧
    ({ orchestrator := o } : OrchestratorEnd).persist = false ∧
    ({ orchestrator := o } : OrchestratorEnd).orchestrator = o ∧
    ({ orchestrator := o } : OrchestratorEnd).event = "orchestrator-end" ∧
    ({ orchestrator := o, error := err } : OrchestratorError).persist = false ∧
    ({ orchestrator := o, error := err } : OrchestratorError).orchestrator = o ∧
    ({ orchestrator := o, error := err } : OrchestratorError).event =
      "orchestrator-error" ∧
    ({ orchestrator := o, error := err } : OrchestratorError).error = err ∧
    ({ orchestrator := o, agent := ag } : AgentTurnStart).persist = false ∧
    ({ orchestrator := o, agent := ag } : AgentTurnStart).orchestrator = o ∧
    ({ orchestrator := o, agent := ag } : AgentTurnStart).event =
      "agent-turn-start" ∧
    ({ orchestrator := o, agent := ag } : AgentTurnStart).agent = ag ∧
    ({ orchestrator := o, agent := ag } : AgentTurnEnd).persist = false ∧
    ({ orchestrator := o, agent := ag } : AgentTurnEnd).orchestrator = o ∧
    ({ orchestrator := o, agent := ag } : AgentTurnEnd).event =
      "agent-turn-end" ∧
    ({ orchestrator := o, agent := ag } : AgentTurnEnd).agent = ag :=
  ⟨rfl, rfl, rfl, rfl, rfl, rfl, rfl, rfl, rfl, rfl, rfl, rfl, rfl, rfl,
   rfl, rfl, rfl, rfl⟩

/-- C10: when an agent is constructed without explicit access values, the
`_default_access` validator sets both flags to false; consequently such a
default agent has no `talk_to_human` tool in its assembled tool list and,
with a positive iteration budget and an unresolved task, performs more
than one model invocation — the multi-iteration loop rather than the
single-turn conversational mode. -/
theorem default_access_consequences (fl : AIFlow) (asst : Assistant)
    (tasks : List AITask) (tls : List String) (ctxt : List (String × String))
    (instr : Option String) (max_iter : Nat) (hm : 1 ≤ max_iter)
    (step : List AITask → List AITask)
    (hp : ∀ ts, ∀ t ∈ step ts, t.status = TaskStatus.pending)
    (hne : ∀ ts, step ts ≠ []) :
    Agent._default_access none = false ∧
    ToolDesc.talk_to_human ∉ Agent._get_tools
      { tasks := tasks, flow := fl, assistant := asst, tools := tls,
        context := ctxt, user_access := Agent._default_access none,
        system_access := Agent._default_access none,
        instructions := instr } ∧
    1 < (Agent.run_async (Agent._default_access none) max_iter step
          tasks).2.2 := by
  refine ⟨rfl, ?_, ?_⟩
  · intro hmem
    rw [get_tools_eq] at hmem
    simp only [List.mem_append, List.mem_map, List.mem_ite_nil_right,
      List.mem_flatMap, List.mem_cons, List.not_mem_nil, or_false,
      List.mem_singleton] at hmem
    rcases hmem with ((⟨n, _, hn⟩ | ⟨_, hn⟩) | ⟨p, _, hn | hn⟩) | ⟨hu, _⟩ <;>
      first
        | injection hn
        | exact absurd hu (by simp [Agent._default_access])
  · have h := run_loop_all_pending step hp hne max_iter 0 (step tasks)
      (hp tasks) (hne tasks)
    show 1 < (Agent.run_async false max_iter step tasks).2.2
    simp only [Agent.run_async, if_false, Bool.false_eq_true]
    rw [h.1]
    omega

/-- Witness for C10 at a concrete input: a default-access single-task agent
with budget 2 and a never-resolving step has no `talk_to_human` tool and
performs more than one invocation. -/
theorem default_access_consequences_witness :
    Agent._default_access none = false ∧
    ToolDesc.talk_to_human ∉ Agent._get_tools
      { tasks := [{ objective := "t" }], flow := {}, assistant := {},
        tools := [], context := [],
        user_access := Agent._default_access none,
        system_access := Agent._default_access none, instructions := none } ∧
    1 < (Agent.run_async (Agent._default_access none) 2
          (fun _ => [{ objective := "t" }]) [{ objective := "t" }]).2.2 :=
  default_access_consequences {} {} [{ objective := "t" }] [] [] none 2
    (by decide) (fun _ => [{ objective := "t" }])
    (by intro ts t ht; simp at ht; simp [ht])
    (by intro ts; simp)
